import Mathlib

/-!
Verification of the dictation task-creation word-selection logic of the
Junior_Review backend (`app/api/dictation.py`), together with the
configuration-update whitelist loop (`update_config`) and the request
validation of `create_task`.

The shallow embedding translates the Python handler code into pure Lean
functions.  The surrounding HTTP/DB glue is modelled as explicit data:
the database is a record of children, per-child configurations and
curriculum items; a request body is a record of optional JSON fields.
-/

namespace Dictation

/-- A child profile.  Field types follow the spec's data model (grade,
semester, textbook version, ownership by one user); the ORM model file is
not part of the sources under examination. -/
structure Child where
  id : Nat
  user_id : Nat
  grade : Nat
  semester : Nat
  textbook_version : String
deriving DecidableEq

/-- Per-child dictation configuration.  The five fields are the ones read
and written by `app/api/dictation.py`; `words_per_dictation` is the spec's
"target word count per task", a count, hence a natural number.  Defaults
(10, 3, 5, 100, false) follow the `get_config` docstring. -/
structure DictationConfig where
  words_per_dictation : Nat
  review_days : Nat
  dictation_interval : Nat
  dictation_ratio : Nat
  wrong_words_only : Bool
deriving DecidableEq

/-- A curriculum catalog entry (`YuwenItem`): one word tied to a
(grade, semester, textbook-version, unit) tuple. -/
structure YuwenItem where
  grade : Nat
  semester : Nat
  textbook_version : String
  unit : Nat
  word : String
deriving DecidableEq

/-- JSON body of `POST /api/dictation/task/create`: `child_id` plus the two
optional keys `words` and `unit`.  An `Option` field is `some _` exactly when
the key is present in the request body (so `words = some []` models a request
that contains the `words` key with an empty list). -/
structure CreateTaskBody where
  child_id : Option Nat
  words : Option (List String)
  unit : Option Nat
deriving DecidableEq

/-- Model of Python's `random.sample(pop, k)` (sampling without replacement):
`k` positions are drawn one after another, each position being removed from
the remaining population once drawn.  The random number generator is an
arbitrary stream `g` of naturals, consumed one value per draw; taking the
draw index modulo the remaining population size lets every remaining
position be selected, so quantifying over all `g` covers every possible
sample `random.sample` can return. -/
def sample (g : Nat → Nat) : Nat → Nat → List String → List String
  | _, 0, _ => []
  | _, _ + 1, [] => []
  | step, k + 1, x :: xs =>
    (x :: xs).getD (g step % (x :: xs).length) x ::
      sample g (step + 1) k ((x :: xs).eraseIdx (g step % (x :: xs).length))

/-- The curriculum rows returned by
`YuwenItem.query.filter_by(grade=child.grade, semester=child.semester,
textbook_version=child.textbook_version, unit=data['unit']).all()`. -/
def matchedItems (cur : List YuwenItem) (child : Child) (u : Nat) : List YuwenItem :=
  cur.filter fun it =>
    it.grade == child.grade && it.semester == child.semester &&
      it.textbook_version == child.textbook_version && it.unit == u

/-- The word-selection block of `create_task` (dictation.py lines 209-230):
if the `words` key is present use it verbatim; otherwise if the `unit` key is
present take all matching curriculum words, randomly sampling
`words_per_dictation` of them when there are more than that; otherwise the
unimplemented smart selection leaves the list empty. -/
def select_words (g : Nat → Nat) (cur : List YuwenItem) (child : Child)
    (config : DictationConfig) : Option (List String) → Option Nat → List String
  | some ws, _ => ws
  | none, some u =>
    if ((matchedItems cur child u).map (fun it => it.word)).length >
        config.words_per_dictation then
      sample g 0 config.words_per_dictation
        ((matchedItems cur child u).map (fun it => it.word))
    else
      (matchedItems cur child u).map (fun it => it.word)
  | none, none => []

/-- The database as seen by the dictation endpoints. -/
structure Db where
  children : List Child
  configs : List (Nat × DictationConfig)
  curriculum : List YuwenItem

/-- `DictationConfig()` defaults, from the `get_config` docstring. -/
def defaultConfig : DictationConfig :=
  { words_per_dictation := 10, review_days := 3, dictation_interval := 5,
    dictation_ratio := 100, wrong_words_only := false }

/-- `Child.query.filter_by(id=child_id, user_id=g.user.id).first()`. -/
def find_child (db : Db) (cid uid : Nat) : Option Child :=
  (db.children.filter fun c => c.id == cid && c.user_id == uid).head?

/-- `child.dictation_config`, created with defaults when absent. -/
def get_or_create_config (db : Db) (child : Child) : DictationConfig :=
  match db.configs.lookup child.id with
  | some c => c
  | none => defaultConfig

/-- Outcome of `create_task`: the two validation errors return before any
task object is constructed; on success the task holds one item per selected
word. -/
inductive CreateTaskResult where
  | missingParam
  | childNotFound
  | success (task_words : List String)
deriving DecidableEq

/-- The `create_task` handler (dictation.py lines 163-256), up to
persistence: reject a missing body or missing `child_id`, reject a child not
owned by the requesting user, then build the task's word list. -/
def create_task (g : Nat → Nat) (db : Db) (uid : Nat) :
    Option CreateTaskBody → CreateTaskResult
  | none => .missingParam
  | some data =>
    match data.child_id with
    | none => .missingParam
    | some cid =>
      match find_child db cid uid with
      | none => .childNotFound
      | some child =>
        .success (select_words g db.curriculum child
          (get_or_create_config db child) data.words data.unit)

/-! ### Model of `update_config` (dictation.py lines 80-158) -/

/-- A JSON value as it can appear in the `PUT /api/dictation/config` body. -/
inductive JsonVal where
  | jnum (n : Int)
  | jstr (s : String)
  | jbool (b : Bool)
  | jnull
deriving DecidableEq

/-- Configuration fields as stored by `setattr`, which places whatever JSON
value the request carried into the attribute. -/
structure ConfigRecord where
  words_per_dictation : JsonVal
  review_days : JsonVal
  dictation_interval : JsonVal
  dictation_ratio : JsonVal
  wrong_words_only : JsonVal
deriving DecidableEq

/-- The whitelist iterated over by the update loop. -/
def config_update_fields : List String :=
  ["words_per_dictation", "review_days", "dictation_interval",
    "dictation_ratio", "wrong_words_only"]

/-- `setattr(config, field, value)` for the five known field names. -/
def setConfigAttr (c : ConfigRecord) (f : String) (v : JsonVal) : ConfigRecord :=
  match f with
  | "words_per_dictation" => { c with words_per_dictation := v }
  | "review_days" => { c with review_days := v }
  | "dictation_interval" => { c with dictation_interval := v }
  | "dictation_ratio" => { c with dictation_ratio := v }
  | "wrong_words_only" => { c with wrong_words_only := v }
  | _ => c

/-- The update loop of `update_config`: for each whitelisted field, if the
key is present in the request body, store its value.  The body is modelled
as a lookup function (a JSON object maps keys to values); keys outside the
whitelist are never consulted by the loop. -/
def update_config_loop (c : ConfigRecord) (data : String → Option JsonVal) :
    ConfigRecord :=
  config_update_fields.foldl
    (fun cfg f =>
      match data f with
      | some v => setConfigAttr cfg f v
      | none => cfg)
    c

/-! ### Lemmas about `sample` -/

theorem sample_length (g : Nat → Nat) :
    ∀ (k step : Nat) (l : List String), k ≤ l.length →
      (sample g step k l).length = k := by
  intro k
  induction k with
  | zero => intro step l _; simp [sample]
  | succ k ih =>
    intro step l hk
    match l with
    | [] => simp at hk
    | x :: xs =>
      have hi : g step % (x :: xs).length < (x :: xs).length :=
        Nat.mod_lt _ (by simp)
      have herase : ((x :: xs).eraseIdx (g step % (x :: xs).length)).length
          = xs.length := by
        rw [List.length_eraseIdx, if_pos hi]
        simp
      have hk' : k ≤ ((x :: xs).eraseIdx (g step % (x :: xs).length)).length := by
        rw [herase]; simp only [List.length_cons] at hk; omega
      show ((x :: xs).getD (g step % (x :: xs).length) x ::
        sample g (step + 1) k
          ((x :: xs).eraseIdx (g step % (x :: xs).length))).length = k + 1
      rw [List.length_cons, ih _ _ hk']

theorem mem_of_mem_sample (g : Nat → Nat) :
    ∀ (k step : Nat) (l : List String) (w : String),
      w ∈ sample g step k l → w ∈ l := by
  intro k
  induction k with
  | zero => intro step l w h; simp [sample] at h
  | succ k ih =>
    intro step l w h
    match l with
    | [] => simp [sample] at h
    | x :: xs =>
      have hi : g step % (x :: xs).length < (x :: xs).length :=
        Nat.mod_lt _ (by simp)
      simp only [sample, List.mem_cons] at h
      rcases h with h | h
      · rw [h, List.getD_eq_getElem _ _ hi]
        exact List.getElem_mem _
      · exact (List.eraseIdx_sublist (x :: xs) _).subset (ih _ _ _ h)

theorem getElem_not_mem_eraseIdx (l : List String) (i : Nat) (h : i < l.length)
    (hnd : l.Nodup) : l[i] ∉ l.eraseIdx i := by
  intro hmem
  rw [List.mem_eraseIdx_iff_getElem] at hmem
  obtain ⟨j, hj, hne, hval⟩ := hmem
  have : (⟨j, hj⟩ : Fin l.length) = ⟨i, h⟩ := by
    rw [← hnd.get_inj_iff]
    simpa using hval
  exact hne (by simpa using congrArg Fin.val this)

theorem sample_nodup (g : Nat → Nat) :
    ∀ (k step : Nat) (l : List String), l.Nodup →
      (sample g step k l).Nodup := by
  intro k
  induction k with
  | zero => intro step l _; simp [sample]
  | succ k ih =>
    intro step l hnd
    match l with
    | [] => simp [sample]
    | x :: xs =>
      have hi : g step % (x :: xs).length < (x :: xs).length :=
        Nat.mod_lt _ (by simp)
      simp only [sample, List.nodup_cons]
      constructor
      · intro hmem
        have hin := mem_of_mem_sample g _ _ _ _ hmem
        rw [List.getD_eq_getElem _ _ hi] at hin
        exact getElem_not_mem_eraseIdx (x :: xs) _ hi hnd hin
      · exact ih _ _ ((List.eraseIdx_sublist (x :: xs) _).nodup hnd)

/-! ### Claim theorems -/

/-- C2: when an explicit word list is supplied, the selected words are
exactly that list — same elements, same order, no truncation (whatever the
configured target count) and no deduplication; the `unit` key, present or
not, is irrelevant. -/
theorem explicit_words_verbatim (g : Nat → Nat) (cur : List YuwenItem)
    (child : Child) (config : DictationConfig) (ws : List String)
    (uo : Option Nat) :
    select_words g cur child config (some ws) uo = ws := rfl

/-- C3: in unit mode, when the number of matched curriculum words is at most
`words_per_dictation`, the selection is the full matched word list, in
curriculum order, with nothing dropped. -/
theorem unit_mode_full_set (g : Nat → Nat) (cur : List YuwenItem)
    (child : Child) (config : DictationConfig) (u : Nat)
    (hle : ((matchedItems cur child u).map (fun it => it.word)).length ≤
      config.words_per_dictation) :
    select_words g cur child config none (some u) =
      (matchedItems cur child u).map (fun it => it.word) := by
  simp only [select_words]
  rw [if_neg (by omega)]

/-- Witness for C3 at a concrete input: one matched word, default target 10. -/
theorem unit_mode_full_set_witness :
    select_words (fun _ => 0) [⟨3, 1, "A", 2, "水"⟩] ⟨1, 1, 3, 1, "A"⟩
      defaultConfig none (some 2) = ["水"] := by
  rw [unit_mode_full_set (fun _ => 0) [⟨3, 1, "A", 2, "水"⟩] ⟨1, 1, 3, 1, "A"⟩
    defaultConfig 2 (by decide)]
  decide

/-- C4: when neither an explicit word list nor a unit is supplied, the
smart-selection placeholder leaves the selected word list empty. -/
theorem smart_selection_empty (g : Nat → Nat) (cur : List YuwenItem)
    (child : Child) (config : DictationConfig) :
    select_words g cur child config none none = [] := rfl

/-- C5: the explicit list has priority — when both an explicit list and a
unit are supplied the result is the explicit list, and it does not depend on
the curriculum or on the random stream (the lookup/sampling path is not
taken). -/
theorem explicit_list_priority (g g' : Nat → Nat) (cur cur' : List YuwenItem)
    (child : Child) (config : DictationConfig) (ws : List String) (u : Nat) :
    select_words g cur child config (some ws) (some u) = ws ∧
    select_words g cur child config (some ws) (some u) =
      select_words g' cur' child config (some ws) (some u) := ⟨rfl, rfl⟩

/-- C9: a request body containing the `words` key with an empty list selects
the explicit-list mode: the created task succeeds with zero items even when
a unit is also supplied, and the selection does not depend on the curriculum
or on the random stream. -/
theorem empty_words_list_mode (g g' : Nat → Nat) (db : Db) (uid : Nat)
    (body : CreateTaskBody) (cid : Nat) (child : Child) (u : Nat)
    (cur' : List YuwenItem)
    (hw : body.words = some []) (hu : body.unit = some u)
    (hc : body.child_id = some cid)
    (hf : find_child db cid uid = some child) :
    create_task g db uid (some body) = .success [] ∧
    select_words g db.curriculum child (get_or_create_config db child)
        body.words body.unit =
      select_words g' cur' child (get_or_create_config db child)
        body.words body.unit := by
  constructor
  · simp [create_task, hc, hf, hw, select_words]
  · rw [hw, hu]; simp [select_words]

/-- C1 (amended): in unit mode with more matched words than
`words_per_dictation`, every possible random draw returns exactly
`words_per_dictation` words, each taken from the matched word list, the draw
being made without replacement over list positions; the result is free of
duplicate words whenever the matched word list itself contains no duplicate
word.  (Python's `random.sample` removes positions, not values, so a word
occurring at two matched positions can be returned twice.) -/
theorem unit_mode_sample_spec (g : Nat → Nat) (cur : List YuwenItem)
    (child : Child) (config : DictationConfig) (u : Nat)
    (hgt : config.words_per_dictation <
      ((matchedItems cur child u).map (fun it => it.word)).length) :
    (select_words g cur child config none (some u)).length =
        config.words_per_dictation ∧
    (∀ w ∈ select_words g cur child config none (some u),
        w ∈ (matchedItems cur child u).map (fun it => it.word)) ∧
    (((matchedItems cur child u).map (fun it => it.word)).Nodup →
      (select_words g cur child config none (some u)).Nodup) := by
  have hsel : select_words g cur child config none (some u) =
      sample g 0 config.words_per_dictation
        ((matchedItems cur child u).map (fun it => it.word)) := by
    simp only [select_words]
    rw [if_pos (by omega)]
  refine ⟨?_, ?_, ?_⟩
  · rw [hsel]
    exact sample_length g _ 0 _ (Nat.le_of_lt hgt)
  · intro w hwmem
    rw [hsel] at hwmem
    exact mem_of_mem_sample g _ _ _ _ hwmem
  · intro hnd
    rw [hsel]
    exact sample_nodup g _ _ _ hnd

/-- Witness for C1's amended theorem at a concrete input: three distinct
matched words, target count 2. -/
theorem unit_mode_sample_spec_witness :
    (select_words (fun _ => 0)
      [⟨3, 1, "A", 2, "水"⟩, ⟨3, 1, "A", 2, "火"⟩, ⟨3, 1, "A", 2, "土"⟩]
      ⟨1, 1, 3, 1, "A"⟩ ⟨2, 3, 5, 100, false⟩ none (some 2)).length = 2 :=
  (unit_mode_sample_spec (fun _ => 0)
    [⟨3, 1, "A", 2, "水"⟩, ⟨3, 1, "A", 2, "火"⟩, ⟨3, 1, "A", 2, "土"⟩]
    ⟨1, 1, 3, 1, "A"⟩ ⟨2, 3, 5, 100, false⟩ 2 (by decide)).1

/-- C1 counterexample: a curriculum unit in which the word "水" occurs in
two rows.  The matched word count (3) exceeds the target (2), yet the draw
that picks both occurrences returns ["水", "水"], which has a duplicate —
refuting the claim that the returned list never contains duplicates. -/
theorem unit_mode_duplicates_counterexample :
    (2 : Nat) <
      ((matchedItems
          [⟨3, 1, "A", 2, "水"⟩, ⟨3, 1, "A", 2, "水"⟩, ⟨3, 1, "A", 2, "火"⟩]
          ⟨1, 1, 3, 1, "A"⟩ 2).map (fun it => it.word)).length ∧
    select_words (fun _ => 0)
        [⟨3, 1, "A", 2, "水"⟩, ⟨3, 1, "A", 2, "水"⟩, ⟨3, 1, "A", 2, "火"⟩]
        ⟨1, 1, 3, 1, "A"⟩ ⟨2, 3, 5, 100, false⟩ none (some 2) = ["水", "水"] ∧
    ¬ (select_words (fun _ => 0)
        [⟨3, 1, "A", 2, "水"⟩, ⟨3, 1, "A", 2, "水"⟩, ⟨3, 1, "A", 2, "火"⟩]
        ⟨1, 1, 3, 1, "A"⟩ ⟨2, 3, 5, 100, false⟩ none (some 2)).Nodup := by
  refine ⟨by decide, by decide, by decide⟩

/-- C6: selection has no error states — with a found child, `create_task`
always succeeds; an empty curriculum match yields an empty word list (an
empty task) rather than an error; and the unit-mode lookup matches exactly
the curriculum rows whose (grade, semester, textbook version, unit) equal
the child's position together with the supplied unit. -/
theorem selection_no_error_states :
    (∀ (g : Nat → Nat) (db : Db) (uid : Nat) (body : CreateTaskBody)
        (cid : Nat) (child : Child), body.child_id = some cid →
        find_child db cid uid = some child →
        ∃ ws, create_task g db uid (some body) = .success ws) ∧
    (∀ (g : Nat → Nat) (cur : List YuwenItem) (child : Child)
        (config : DictationConfig) (u : Nat), matchedItems cur child u = [] →
        select_words g cur child config none (some u) = []) ∧
    (∀ (cur : List YuwenItem) (child : Child) (u : Nat) (it : YuwenItem),
        it ∈ matchedItems cur child u ↔
          it ∈ cur ∧ it.grade = child.grade ∧ it.semester = child.semester ∧
            it.textbook_version = child.textbook_version ∧ it.unit = u) := by
  refine ⟨?_, ?_, ?_⟩
  · intro g db uid body cid child hc hf
    refine ⟨select_words g db.curriculum child (get_or_create_config db child)
      body.words body.unit, ?_⟩
    simp [create_task, hc, hf]
  · intro g cur child config u hm
    simp [select_words, hm]
  · intro cur child u it
    simp [matchedItems, List.mem_filter, and_assoc]

/-- Witness for C6 at a concrete input: one owned child, a unit with no
curriculum rows, yielding a successful empty task. -/
theorem selection_no_error_states_witness :
    ∃ ws, create_task (fun _ => 0) ⟨[⟨1, 1, 3, 1, "A"⟩], [], []⟩ 1
      (some ⟨some 1, none, some 9⟩) = .success ws :=
  selection_no_error_states.1 (fun _ => 0) ⟨[⟨1, 1, 3, 1, "A"⟩], [], []⟩ 1
    ⟨some 1, none, some 9⟩ 1 ⟨1, 1, 3, 1, "A"⟩ rfl (by decide)

/-- C7: word selection is deterministic in the random-number-generator
state — equal streams give equal results on any inputs — while two different
streams may return different samples over the same candidate set of more
than `words_per_dictation` words. -/
theorem selection_seed_determinism :
    (∀ (g g' : Nat → Nat) (db : Db) (uid : Nat) (body : Option CreateTaskBody),
        g = g' → create_task g db uid body = create_task g' db uid body) ∧
    (∃ g g' : Nat → Nat,
        select_words g
            [⟨1, 1, "A", 1, "aa"⟩, ⟨1, 1, "A", 1, "bb"⟩, ⟨1, 1, "A", 1, "cc"⟩]
            ⟨1, 1, 1, 1, "A"⟩ ⟨2, 3, 5, 100, false⟩ none (some 1) ≠
          select_words g'
            [⟨1, 1, "A", 1, "aa"⟩, ⟨1, 1, "A", 1, "bb"⟩, ⟨1, 1, "A", 1, "cc"⟩]
            ⟨1, 1, 1, 1, "A"⟩ ⟨2, 3, 5, 100, false⟩ none (some 1)) :=
  ⟨fun _ _ _ _ _ h => by rw [h], ⟨fun _ => 0, fun _ => 1, by decide⟩⟩

/-- Witness for C7's determinism conjunct at a concrete input. -/
theorem selection_seed_determinism_witness :
    create_task (fun _ => 0) ⟨[], [], []⟩ 0 none =
      create_task (fun _ => 0) ⟨[], [], []⟩ 0 none :=
  selection_seed_determinism.1 (fun _ => 0) (fun _ => 0) ⟨[], [], []⟩ 0 none rfl

/-- C8: `create_task` answers a missing body or missing `child_id` with the
missing-required-parameter error, and a `child_id` matching no child of the
requesting user with the child-not-found error; both results are validation
errors carrying no task. -/
theorem create_task_validation (g : Nat → Nat) (db : Db) (uid : Nat)
    (body : CreateTaskBody) :
    create_task g db uid none = .missingParam ∧
    (body.child_id = none → create_task g db uid (some body) = .missingParam) ∧
    (∀ cid, body.child_id = some cid →
      (∀ c ∈ db.children, ¬(c.id = cid ∧ c.user_id = uid)) →
      create_task g db uid (some body) = .childNotFound) := by
  refine ⟨rfl, ?_, ?_⟩
  · intro h
    simp [create_task, h]
  · intro cid hc hno
    have hfilter : db.children.filter
        (fun c => c.id == cid && c.user_id == uid) = [] := by
      rw [List.filter_eq_nil_iff]
      intro c hcm h
      exact hno c hcm (by simpa using h)
    have hf : find_child db cid uid = none := by
      unfold find_child
      rw [hfilter]
      rfl
    simp [create_task, hc, hf]

/-- Witness for C8 at concrete inputs: a body without `child_id`, and a
`child_id` that matches no child in an empty database. -/
theorem create_task_validation_witness :
    create_task (fun _ => 0) ⟨[], [], []⟩ 7 (some ⟨none, none, none⟩) =
        .missingParam ∧
    create_task (fun _ => 0) ⟨[], [], []⟩ 7 (some ⟨some 5, none, none⟩) =
        .childNotFound :=
  ⟨(create_task_validation (fun _ => 0) ⟨[], [], []⟩ 7 ⟨none, none, none⟩).2.1 rfl,
   (create_task_validation (fun _ => 0) ⟨[], [], []⟩ 7 ⟨some 5, none, none⟩).2.2
     5 rfl (fun c hc => absurd hc (List.not_mem_nil c))⟩

/-- Witness for C9 at a concrete input: a found child, empty explicit list,
unit also supplied. -/
theorem empty_words_list_mode_witness :
    create_task (fun _ => 0) ⟨[⟨1, 1, 3, 1, "A"⟩], [], []⟩ 1
      (some ⟨some 1, some [], some 4⟩) = .success [] :=
  (empty_words_list_mode (fun _ => 0) (fun _ => 1) ⟨[⟨1, 1, 3, 1, "A"⟩], [], []⟩
    1 ⟨some 1, some [], some 4⟩ 1 ⟨1, 1, 3, 1, "A"⟩ 4 [] rfl rfl rfl rfl).1

/-- C10: the configuration update touches only the five whitelisted fields —
the result depends only on the request body's values at those five keys (any
other key never changes the configuration), and each whitelisted field
absent from the body keeps its previous value. -/
theorem update_config_whitelist (c : ConfigRecord)
    (d d' : String → Option JsonVal)
    (hagree : ∀ f ∈ config_update_fields, d f = d' f) :
    update_config_loop c d = update_config_loop c d' ∧
    (d "words_per_dictation" = none →
      (update_config_loop c d).words_per_dictation = c.words_per_dictation) ∧
    (d "review_days" = none →
      (update_config_loop c d).review_days = c.review_days) ∧
    (d "dictation_interval" = none →
      (update_config_loop c d).dictation_interval = c.dictation_interval) ∧
    (d "dictation_ratio" = none →
      (update_config_loop c d).dictation_ratio = c.dictation_ratio) ∧
    (d "wrong_words_only" = none →
      (update_config_loop c d).wrong_words_only = c.wrong_words_only) := by
  have h1 := hagree "words_per_dictation" (by simp [config_update_fields])
  have h2 := hagree "review_days" (by simp [config_update_fields])
  have h3 := hagree "dictation_interval" (by simp [config_update_fields])
  have h4 := hagree "dictation_ratio" (by simp [config_update_fields])
  have h5 := hagree "wrong_words_only" (by simp [config_update_fields])
  refine ⟨?_, ?_, ?_, ?_, ?_, ?_⟩
  · simp only [update_config_loop, config_update_fields, List.foldl]
    rw [h1, h2, h3, h4, h5]
  · intro h
    simp only [update_config_loop, config_update_fields, List.foldl, h]
    rcases d "review_days" with _ | v2 <;>
      rcases d "dictation_interval" with _ | v3 <;>
        rcases d "dictation_ratio" with _ | v4 <;>
          rcases d "wrong_words_only" with _ | v5 <;>
            simp [setConfigAttr]
  · intro h
    simp only [update_config_loop, config_update_fields, List.foldl, h]
    rcases d "words_per_dictation" with _ | v1 <;>
      rcases d "dictation_interval" with _ | v3 <;>
        rcases d "dictation_ratio" with _ | v4 <;>
          rcases d "wrong_words_only" with _ | v5 <;>
            simp [setConfigAttr]
  · intro h
    simp only [update_config_loop, config_update_fields, List.foldl, h]
    rcases d "words_per_dictation" with _ | v1 <;>
      rcases d "review_days" with _ | v2 <;>
        rcases d "dictation_ratio" with _ | v4 <;>
          rcases d "wrong_words_only" with _ | v5 <;>
            simp [setConfigAttr]
  · intro h
    simp only [update_config_loop, config_update_fields, List.foldl, h]
    rcases d "words_per_dictation" with _ | v1 <;>
      rcases d "review_days" with _ | v2 <;>
        rcases d "dictation_interval" with _ | v3 <;>
          rcases d "wrong_words_only" with _ | v5 <;>
            simp [setConfigAttr]
  · intro h
    simp only [update_config_loop, config_update_fields, List.foldl, h]
    rcases d "words_per_dictation" with _ | v1 <;>
      rcases d "review_days" with _ | v2 <;>
        rcases d "dictation_interval" with _ | v3 <;>
          rcases d "dictation_ratio" with _ | v4 <;>
            simp [setConfigAttr]

/-- Witness for C10 at a concrete input: a body with no whitelisted key
leaves the stored target count unchanged. -/
theorem update_config_whitelist_witness :
    (update_config_loop
        ⟨.jnum 10, .jnum 3, .jnum 5, .jnum 100, .jbool false⟩
        (fun _ => none)).words_per_dictation = JsonVal.jnum 10 :=
  (update_config_whitelist
    ⟨.jnum 10, .jnum 3, .jnum 5, .jnum 100, .jbool false⟩
    (fun _ => none) (fun _ => none) (fun _ _ => rfl)).2.1 rfl

end Dictation
